import Mathlib

/-!
Verification of the diff-cover CLI tool (`diff_cover/diff_cover_tool.py`)
against its natural-language specification.

The CLI layer (`parse_coverage_args`, `generate_coverage_report`, `main`)
is embedded from the source file directly.  The correlation engine and the
coverage-merge policy live in modules of the repository that are not part
of the provided source tree (`report_generator.py`,
`violationsreporters/violations_reporter.py`); those parts are modelled
from the specification, as indicated in their doc comments.
-/

namespace DiffCover

/-- Per-line coverage status tracked by a coverage input; absence
(`Option.none` at the use sites) means "not tracked". -/
inductive LineStatus
  | covered
  | uncovered
deriving DecidableEq, Repr, Fintype

/-- Modelled from the spec: the "covered wins" merge of two per-line
statuses (§4.2); the merging code lives in
`violationsreporters/violations_reporter.py`, which is not in the provided
source tree.  A line is COVERED if covered in any input, UNCOVERED if some
input tracks it and none covers it, and untracked otherwise. -/
def mergeStatus : Option LineStatus → Option LineStatus → Option LineStatus
  | some .covered, _ => some .covered
  | _, some .covered => some .covered
  | some .uncovered, _ => some .uncovered
  | _, some .uncovered => some .uncovered
  | none, none => none

/-- Modelled from the spec: merge of the per-line statuses reported by a
list of coverage inputs for one line. -/
def mergeStatusList (l : List (Option LineStatus)) : Option LineStatus :=
  l.foldr mergeStatus none

/-- A coverage input (or merged record) for one resolved path: sparse map
from line number to status. -/
def CoverageInput : Type := Nat → Option LineStatus

/-- Modelled from the spec: merging a list of coverage inputs describing
the same resolved path into one `CoverageRecord`, line by line. -/
def mergeRecords (inputs : List CoverageInput) : CoverageInput :=
  fun line => mergeStatusList (inputs.map (fun i => i line))

/-- Modelled from the spec: the binary merge of two coverage inputs
("merging their union directly"). -/
def merge2 (a b : CoverageInput) : CoverageInput :=
  fun line => mergeStatus (a line) (b line)

/-- Modelled from the spec: `percent_covered` as computed by the report
generators (`report_generator.py`, not in the provided source tree):
`covered / trackable * 100`, with the vacuous-100% rule when the
trackable count is zero. -/
def percentCovered (covered trackable : Nat) : ℚ :=
  if trackable = 0 then 100 else (covered : ℚ) / (trackable : ℚ) * 100

/-- A division operation that refuses a zero denominator, used to state
that the percent computation never evaluates a ratio with denominator 0. -/
def safeDiv (a b : ℚ) : Option ℚ :=
  if b = 0 then none else some (a / b)

/-- Modelled from the spec: the percent computation with the division
guarded; the ratio branch fails (returns `none`) on a zero denominator
instead of producing a value. -/
def percentCoveredChecked (covered trackable : Nat) : Option ℚ :=
  if trackable = 0 then some 100
  else (safeDiv (covered : Nat) ((trackable : Nat) : ℚ)).map (fun r => r * 100)

/-- Per-file correlation output (spec §3 `FileCoverageResult`). -/
structure FileCoverageResult where
  violation_lines : List Nat
  trackable_count : Nat
  covered_count : Nat
deriving DecidableEq, Repr

/-- `percent_covered` attribute of a `FileCoverageResult`. -/
def FileCoverageResult.percent_covered (r : FileCoverageResult) : ℚ :=
  percentCovered r.covered_count r.trackable_count

/-- Changed lines of one file that are tracked by the coverage record. -/
def trackableLines (changed : Finset Nat) (cov : CoverageInput) : Finset Nat :=
  changed.filter (fun l => (cov l).isSome)

/-- Changed, tracked, covered lines of one file. -/
def coveredLines (changed : Finset Nat) (cov : CoverageInput) : Finset Nat :=
  changed.filter (fun l => cov l = some .covered)

/-- Changed, tracked, uncovered lines of one file (the violations). -/
def uncoveredLines (changed : Finset Nat) (cov : CoverageInput) : Finset Nat :=
  changed.filter (fun l => cov l = some .uncovered)

/-- Modelled from the spec: the correlation engine's per-file computation
(§4.3, implemented in `report_generator.py`, not in the provided source
tree): intersect the changed lines with the tracked lines, split into
covered and uncovered, report ascending violations. -/
def correlate (changed : Finset Nat) (cov : CoverageInput) : FileCoverageResult :=
  { violation_lines := (uncoveredLines changed cov).sort (· ≤ ·)
    trackable_count := (trackableLines changed cov).card
    covered_count := (coveredLines changed cov).card }

/-- Aggregate correlation output (spec §3 `TotalResult`). -/
structure TotalResult where
  total_trackable : Nat
  total_covered : Nat
deriving DecidableEq, Repr

/-- `percent_covered` attribute of the `TotalResult`. -/
def TotalResult.percent_covered (t : TotalResult) : ℚ :=
  percentCovered t.total_covered t.total_trackable

/-- Modelled from the spec: sum-then-divide aggregation over the per-file
results (§4.3). -/
def aggregate (rs : List FileCoverageResult) : TotalResult :=
  { total_trackable := (rs.map FileCoverageResult.trackable_count).sum
    total_covered := (rs.map FileCoverageResult.covered_count).sum }

/-- The `TotalResult` obtained by correlating every (changed-lines,
coverage-record) pair of a run and aggregating. -/
def totalOfRun (files : List (Finset Nat × CoverageInput)) : TotalResult :=
  aggregate (files.map (fun pc => correlate pc.1 pc.2))

/-! ## Embedding of `parse_coverage_args` (argparse declarations of
`diff_cover_tool.py`, lines 32-119, under standard argparse semantics) -/

/-- argparse: a token written like `-\d+` or `-\d*\.\d+` is treated as a
negative number (hence positional-like), since this parser declares no
option looking like a negative number. -/
def isNegativeNumber (s : String) : Bool :=
  match s.toList with
  | '-' :: rest =>
    (decide (rest ≠ []) && rest.all Char.isDigit) ||
    (match rest.dropWhile Char.isDigit with
     | '.' :: frac => decide (frac ≠ []) && frac.all Char.isDigit
     | _ => false)
  | _ => false

/-- argparse: a token is option-like when it starts with the prefix
character `-`, is not `-` alone, and does not look like a negative
number. -/
def isOptionLike (s : String) : Bool :=
  match s.toList with
  | '-' :: rest => !rest.isEmpty && !isNegativeNumber s
  | _ => false

/-- Value of a digit character. -/
def digitVal (c : Char) : Nat := c.toNat - 48

/-- Natural number denoted by a digit string. -/
def natOfDigits (cs : List Char) : Nat :=
  cs.foldl (fun n c => n * 10 + digitVal c) 0

/-- Python `float(...)` conversion on the decimal forms the tool's
`--fail-under SCORE` option receives: optional sign, then digits with an
optional fractional part (exponents and specials are not modelled). -/
def parseFloat (s : String) : Option ℚ :=
  let signAndBody : ℚ × List Char :=
    match s.toList with
    | '-' :: rest => (-1, rest)
    | '+' :: rest => (1, rest)
    | cs => (1, cs)
  let sign := signAndBody.1
  let body := signAndBody.2
  let intPart := body.takeWhile Char.isDigit
  match body.dropWhile Char.isDigit with
  | [] =>
    if intPart.isEmpty then none
    else some (sign * (natOfDigits intPart : ℚ))
  | '.' :: frac =>
    if frac.all Char.isDigit && !(intPart.isEmpty && frac.isEmpty) then
      some (sign * ((natOfDigits intPart : ℚ) +
        (natOfDigits frac : ℚ) / ((10 : ℚ) ^ frac.length)))
    else none
  | _ => none

/-- The dict returned by `parse_coverage_args` (lines 32-119). -/
structure CoverageArgs where
  coverage_xml : List String
  html_report : Option String
  external_css_file : Option String
  compare_branch : String
  fail_under : ℚ
  ignore_staged : Bool
  ignore_unstaged : Bool
  exclude : Option (List String)
  src_roots : List String
deriving DecidableEq, Repr

/-- The defaults declared by the `add_argument` calls: `html_report`,
`external_css_file` and `exclude` default to `None`, `compare_branch` to
`origin/master`, `fail_under` to `float('0') = 0.0` (argparse applies the
`type=float` conversion to the string default `'0'`), the two ignore
flags to `False`, and `src_roots` to
`['src/main/java', 'src/test/java']`. -/
def defaultArgs : CoverageArgs :=
  { coverage_xml := []
    html_report := none
    external_css_file := none
    compare_branch := "origin/master"
    fail_under := 0
    ignore_staged := false
    ignore_unstaged := false
    exclude := none
    src_roots := ["src/main/java", "src/test/java"] }

/-- argparse consumption of the single value of a `nargs=None` option:
the next token, provided it exists and is not option-like. -/
def singleValue (errMsg : String) (rest : List String)
    (k : String → List String → Except String CoverageArgs) :
    Except String CoverageArgs :=
  match rest with
  | v :: rest' => if isOptionLike v then .error errMsg else k v rest'
  | [] => .error errMsg

/-- argparse consumption of the values of a `nargs='+'` option: the
maximal nonempty run of following non-option tokens. -/
def multiValue (errMsg : String) (rest : List String)
    (k : List String → List String → Except String CoverageArgs) :
    Except String CoverageArgs :=
  let vals := rest.takeWhile (fun s => !isOptionLike s)
  if vals.isEmpty then .error errMsg
  else k vals (rest.dropWhile (fun s => !isOptionLike s))

/-- The token-consumption loop of argparse over the options declared by
`parse_coverage_args`: single-value options take the next non-option
token; `nargs='+'` options greedily take the following run of non-option
tokens; the single `nargs='+'` positional `coverage_xml` is filled by the
first run of positional tokens, and a second positional run is an
`unrecognized arguments` error, as is an undeclared option.  The `fuel`
parameter only drives the recursion; every step consumes at least one
token and one unit of fuel, so `fuel = tokens.length` always suffices and
the fuel-exhaustion branch is unreachable. -/
def parseLoop (fuel : Nat) (tokens : List String) (acc : CoverageArgs)
    (pos : List String) : Except String CoverageArgs :=
  match fuel, tokens with
  | _, [] =>
    if pos.isEmpty then
      .error "the following arguments are required: coverage_xml"
    else
      .ok { acc with coverage_xml := pos }
  | 0, _ :: _ => .error "unreachable: fuel exhausted"
  | fuel + 1, t :: rest =>
    if t = "--html-report" then
      singleValue "argument --html-report: expected one argument" rest
        (fun v rest' => parseLoop fuel rest' { acc with html_report := some v } pos)
    else if t = "--external-css-file" then
      singleValue "argument --external-css-file: expected one argument" rest
        (fun v rest' => parseLoop fuel rest' { acc with external_css_file := some v } pos)
    else if t = "--compare-branch" then
      singleValue "argument --compare-branch: expected one argument" rest
        (fun v rest' => parseLoop fuel rest' { acc with compare_branch := v } pos)
    else if t = "--fail-under" then
      singleValue "argument --fail-under: expected one argument" rest
        (fun v rest' =>
          match parseFloat v with
          | some q => parseLoop fuel rest' { acc with fail_under := q } pos
          | none => .error "argument --fail-under: invalid float value")
    else if t = "--ignore-staged" then
      parseLoop fuel rest { acc with ignore_staged := true } pos
    else if t = "--ignore-unstaged" then
      parseLoop fuel rest { acc with ignore_unstaged := true } pos
    else if t = "--exclude" then
      multiValue "argument --exclude: expected at least one argument" rest
        (fun vals rest' => parseLoop fuel rest' { acc with exclude := some vals } pos)
    else if t = "--src-roots" then
      multiValue "argument --src-roots: expected at least one argument" rest
        (fun vals rest' => parseLoop fuel rest' { acc with src_roots := vals } pos)
    else if isOptionLike t then
      .error "unrecognized arguments"
    else
      if pos.isEmpty then
        parseLoop fuel (rest.dropWhile (fun s => !isOptionLike s)) acc
          (t :: rest.takeWhile (fun s => !isOptionLike s))
      else .error "unrecognized arguments"

/-- `parse_coverage_args` (lines 32-119): parse `argv`, returning the
dict of options, or the argparse error. -/
def parse_coverage_args (argv : List String) : Except String CoverageArgs :=
  parseLoop argv.length argv defaultArgs []

/-! ## Embedding of `generate_coverage_report` and `main`
(`diff_cover_tool.py`, lines 122-185) -/

/-- Index just past the last `/` of a path, 0 when there is none
(`p.rfind(sep) + 1` of `posixpath.dirname`). -/
def lastSlashEnd (cs : List Char) : Nat :=
  match cs with
  | [] => 0
  | c :: rest =>
    let tailIdx := lastSlashEnd rest
    if tailIdx = 0 then (if c = '/' then 1 else 0) else tailIdx + 1

/-- `os.path.dirname` for POSIX paths: everything before the final
separator, with trailing separators stripped unless the result is all
separators. -/
def dirname (p : String) : String :=
  let cs := p.toList
  let head := cs.take (lastSlashEnd cs)
  if head.all (fun c => c = '/') then String.mk head
  else String.mk ((head.reverse.dropWhile (fun c => c = '/')).reverse)

/-- Split a character list on `/`, the components as strings. -/
def splitSlash (cs : List Char) : List String :=
  match cs with
  | [] => [""]
  | c :: rest =>
    let tails := splitSlash rest
    if c = '/' then "" :: tails
    else
      match tails with
      | [] => [String.mk [c]]
      | h :: t => String.mk (c :: h.toList) :: t

/-- Path components after normalisation: empty and `.` components vanish
and `..` pops the previous component (both arguments of the tool's
`os.path.relpath` call are paths relative to the same working
directory, so the shared absolute prefix cancels). -/
def normParts (p : String) : List String :=
  (splitSlash p.toList).foldl
    (fun acc comp =>
      if comp = "" ∨ comp = "." then acc
      else if comp = ".." then acc.dropLast
      else acc ++ [comp]) []

/-- Length of the common prefix of two component lists
(`os.path.commonprefix`). -/
def commonPrefixLen : List String → List String → Nat
  | a :: as, b :: bs => if a = b then commonPrefixLen as bs + 1 else 0
  | _, _ => 0

/-- `os.path.relpath(path, start)` for POSIX paths relative to one
working directory: climb out of the uncommon part of `start` with `..`
components, then descend into the uncommon part of `path`. -/
def relpath (path start : String) : String :=
  let pl := normParts path
  let sl := normParts start
  let i := commonPrefixLen sl pl
  let rel := List.replicate (sl.length - i) ".." ++ pl.drop i
  if rel.isEmpty then "." else String.intercalate "/" rel

/-- Observable write effects of one `generate_coverage_report` call:
the HTML report file (with the css url handed to the
`HtmlReportGenerator`), the external CSS file, and the plain report on
standard output. -/
inductive Effect
  | writeHtmlReport (path : String) (cssUrl : Option String)
  | writeCssFile (path : String)
  | writeStdoutReport
deriving DecidableEq, Repr

/-- The `GitDiffReporter` built at lines 129-131 (external collaborator;
only its construction arguments are relevant here). -/
structure GitDiffReporter where
  compare_branch : String
  ignore_staged : Bool
  ignore_unstaged : Bool
  exclude : Option (List String)
deriving DecidableEq, Repr

/-- The `XmlCoverageReporter` built at line 134 (external collaborator;
only its construction arguments are relevant here): the parsed XML roots
and the source-root list. -/
structure XmlCoverageReporter (α : Type) where
  xml_roots : List α
  src_roots : Option (List String)
deriving DecidableEq, Repr

/-- One run of `generate_coverage_report`: the two reporters it builds,
the write effects it performs in order, and its return value. -/
structure GenReportRun (α : Type) where
  diff : GitDiffReporter
  coverage : XmlCoverageReporter α
  effects : List Effect
  result : ℚ
deriving DecidableEq, Repr

/-- `generate_coverage_report` (lines 122-153).  `parseXml` stands for
`cElementTree.parse` (external collaborator; `α` is its result type) and
`stringReportPercent` for the `total_percent_covered()` value of the
`StringReportGenerator` (external collaborator), which the function
returns.  When `html_report` is given, the HTML report is written with
`css_url = os.path.relpath(css_file, os.path.dirname(html_report))` when
`css_file` is also given, and then the CSS file itself is written; the
plain report always goes to standard output last. -/
def generate_coverage_report {α : Type} (parseXml : String → α)
    (stringReportPercent : ℚ) (coverage_xml : List String)
    (compare_branch : String) (html_report : Option String)
    (css_file : Option String) (ignore_staged : Bool)
    (ignore_unstaged : Bool) (exclude : Option (List String))
    (src_roots : Option (List String)) : GenReportRun α :=
  let diff : GitDiffReporter :=
    { compare_branch := compare_branch
      ignore_staged := ignore_staged
      ignore_unstaged := ignore_unstaged
      exclude := exclude }
  let xml_roots := coverage_xml.map parseXml
  let coverage : XmlCoverageReporter α :=
    { xml_roots := xml_roots, src_roots := src_roots }
  let htmlEffects : List Effect :=
    match html_report with
    | none => []
    | some hr =>
      let css_url : Option String :=
        match css_file with
        | none => none
        | some cf => some (relpath cf (dirname hr))
      Effect.writeHtmlReport hr css_url ::
        (match css_file with
         | none => []
         | some cf => [Effect.writeCssFile cf])
  { diff := diff
    coverage := coverage
    effects := htmlEffects ++ [Effect.writeStdoutReport]
    result := stringReportPercent }

/-- The engine call `main` makes at lines 170-179, from the parsed
dict: `fail_under` is not among the arguments handed over. -/
def engineRunOfArgs {α : Type} (parseXml : String → α) (stringReportPercent : ℚ)
    (d : CoverageArgs) : GenReportRun α :=
  generate_coverage_report parseXml stringReportPercent d.coverage_xml
    d.compare_branch d.html_report d.external_css_file d.ignore_staged
    d.ignore_unstaged d.exclude (some d.src_roots)

/-- `argv = argv or sys.argv` (line 166): `None` and the empty list are
both falsy, so either falls back to `sys.argv`. -/
def effectiveArgv : Option (List String) → List String → List String
  | none, sysArgv => sysArgv
  | some l, sysArgv => if l.isEmpty then sysArgv else l

/-- Outcome of a successful `main` run: the returned exit code, whether
the failure message was logged, and the engine run performed. -/
structure MainRun (α : Type) where
  exit : Nat
  loggedFailure : Bool
  engine : GenReportRun α
deriving DecidableEq, Repr

/-- `main` (lines 156-185): fall back to `sys.argv` when `argv` is falsy,
drop the program name, parse the options (an argparse failure raises
`SystemExit` rather than returning, modelled as `.error`), run the
engine, and return 0 when its percent is at least `fail_under`, else log
the failure message and return 1. -/
def main {α : Type} (parseXml : String → α) (stringReportPercent : ℚ)
    (argv : Option (List String)) (sysArgv : List String) :
    Except String (MainRun α) :=
  match parse_coverage_args (effectiveArgv argv sysArgv).tail with
  | .error e => .error e
  | .ok d =>
    let run := engineRunOfArgs parseXml stringReportPercent d
    if run.result ≥ d.fail_under then
      .ok { exit := 0, loggedFailure := false, engine := run }
    else
      .ok { exit := 1, loggedFailure := true, engine := run }

/-! ## Theorems -/

theorem mergeStatusList_cons (a : Option LineStatus) (l : List (Option LineStatus)) :
    mergeStatusList (a :: l) = mergeStatus a (mergeStatusList l) := rfl

theorem mergeStatus_none_right : ∀ a : Option LineStatus,
    mergeStatus a none = a := by decide

theorem mergeStatus_comm : ∀ a b : Option LineStatus,
    mergeStatus a b = mergeStatus b a := by decide

theorem mergeStatus_assoc : ∀ a b c : Option LineStatus,
    mergeStatus (mergeStatus a b) c = mergeStatus a (mergeStatus b c) := by decide

theorem mergeStatus_eq_covered_iff : ∀ a m : Option LineStatus,
    mergeStatus a m = some .covered ↔ a = some .covered ∨ m = some .covered := by
  decide

theorem mergeStatus_eq_none_iff : ∀ a m : Option LineStatus,
    mergeStatus a m = none ↔ a = none ∧ m = none := by decide

theorem mergeStatusList_eq_covered_iff (l : List (Option LineStatus)) :
    mergeStatusList l = some .covered ↔ some LineStatus.covered ∈ l := by
  induction l with
  | nil => simp [mergeStatusList]
  | cons a l ih =>
    rw [mergeStatusList_cons, mergeStatus_eq_covered_iff, ih, List.mem_cons]
    constructor
    · rintro (h | h)
      · exact Or.inl h.symm
      · exact Or.inr h
    · rintro (h | h)
      · exact Or.inl h.symm
      · exact Or.inr h

theorem mergeStatusList_eq_none_iff (l : List (Option LineStatus)) :
    mergeStatusList l = none ↔ ∀ x ∈ l, x = none := by
  induction l with
  | nil => simp [mergeStatusList]
  | cons a l ih =>
    rw [mergeStatusList_cons, mergeStatus_eq_none_iff, ih]
    simp

theorem option_status_trichotomy : ∀ r : Option LineStatus,
    r = some .uncovered ↔ (¬r = some .covered ∧ ¬r = none) := by decide

theorem mergeStatusList_eq_uncovered_iff (l : List (Option LineStatus)) :
    mergeStatusList l = some .uncovered ↔
      (∃ x ∈ l, x ≠ none) ∧ ∀ x ∈ l, x ≠ none → x = some .uncovered := by
  rw [option_status_trichotomy, mergeStatusList_eq_covered_iff,
    mergeStatusList_eq_none_iff]
  constructor
  · rintro ⟨hnc, hnn⟩
    push_neg at hnn
    obtain ⟨x, hx, hxne⟩ := hnn
    refine ⟨⟨x, hx, hxne⟩, ?_⟩
    intro y hy hyne
    match hval : y with
    | none => exact absurd rfl hyne
    | some .covered => exact absurd (hval ▸ hy) hnc
    | some .uncovered => rfl
  · rintro ⟨⟨x, hx, hxne⟩, hall⟩
    constructor
    · intro hc
      have := hall _ hc (by simp)
      simp at this
    · intro hn
      exact hxne (hn x hx)

/-- C3: the coverage merge is commutative and associative — merging
`[A, B]` equals merging `[B, A]` and equals the direct binary merge of
`A` and `B` — and in any merged record a line is COVERED iff some input
covers it, UNCOVERED iff some input tracks it and every tracking input
reports it uncovered, and NOT_TRACKED (absent) iff no input tracks it. -/
theorem merge_commutative_associative_covered_wins :
    (∀ A B : CoverageInput, mergeRecords [A, B] = mergeRecords [B, A]) ∧
    (∀ A B : CoverageInput, mergeRecords [A, B] = merge2 A B) ∧
    (∀ A B : CoverageInput, merge2 A B = merge2 B A) ∧
    (∀ A B C : CoverageInput, merge2 (merge2 A B) C = merge2 A (merge2 B C)) ∧
    (∀ (inputs : List CoverageInput) (line : Nat),
      mergeRecords inputs line = some .covered ↔
        ∃ i ∈ inputs, i line = some .covered) ∧
    (∀ (inputs : List CoverageInput) (line : Nat),
      mergeRecords inputs line = some .uncovered ↔
        (∃ i ∈ inputs, i line ≠ none) ∧
        ∀ i ∈ inputs, i line ≠ none → i line = some .uncovered) ∧
    (∀ (inputs : List CoverageInput) (line : Nat),
      mergeRecords inputs line = none ↔ ∀ i ∈ inputs, i line = none) := by
  have hpair : ∀ A B : CoverageInput, ∀ line : Nat,
      mergeRecords [A, B] line = mergeStatus (A line) (B line) := by
    intro A B line
    show mergeStatus (A line) (mergeStatus (B line) none) = _
    rw [mergeStatus_none_right]
  refine ⟨?_, ?_, ?_, ?_, ?_, ?_, ?_⟩
  · intro A B
    funext line
    rw [hpair, hpair, mergeStatus_comm]
  · intro A B
    funext line
    rw [hpair]
    rfl
  · intro A B
    funext line
    show mergeStatus (A line) (B line) = mergeStatus (B line) (A line)
    rw [mergeStatus_comm]
  · intro A B C
    funext line
    show mergeStatus (mergeStatus (A line) (B line)) (C line)
      = mergeStatus (A line) (mergeStatus (B line) (C line))
    rw [mergeStatus_assoc]
  · intro inputs line
    show mergeStatusList (inputs.map (fun i => i line)) = some .covered ↔ _
    rw [mergeStatusList_eq_covered_iff]
    simp [eq_comm]
  · intro inputs line
    show mergeStatusList (inputs.map (fun i => i line)) = some .uncovered ↔ _
    rw [mergeStatusList_eq_uncovered_iff]
    simp
  · intro inputs line
    show mergeStatusList (inputs.map (fun i => i line)) = none ↔ _
    rw [mergeStatusList_eq_none_iff]
    simp

theorem coveredLines_subset_trackableLines (changed : Finset Nat) (cov : CoverageInput) :
    coveredLines changed cov ⊆ trackableLines changed cov := by
  intro x hx
  simp only [coveredLines, trackableLines, Finset.mem_filter] at hx ⊢
  exact ⟨hx.1, by rw [hx.2]; rfl⟩

theorem correlate_covered_le_trackable (changed : Finset Nat) (cov : CoverageInput) :
    (correlate changed cov).covered_count ≤ (correlate changed cov).trackable_count :=
  Finset.card_le_card (coveredLines_subset_trackableLines changed cov)

theorem percentCovered_nonneg_le_100 (c t : Nat) (h : c ≤ t) :
    0 ≤ percentCovered c t ∧ percentCovered c t ≤ 100 := by
  unfold percentCovered
  by_cases ht : t = 0
  · simp [ht]
  · simp only [ht, if_false]
    have htpos : (0 : ℚ) < (t : ℚ) :=
      Nat.cast_pos.mpr (Nat.pos_of_ne_zero ht)
    constructor
    · positivity
    · have h1 : (c : ℚ) / (t : ℚ) ≤ 1 := by
        rw [div_le_one htpos]
        exact_mod_cast h
      calc (c : ℚ) / (t : ℚ) * 100 ≤ 1 * 100 :=
            mul_le_mul_of_nonneg_right h1 (by norm_num)
        _ = 100 := by norm_num

theorem percentCovered_of_zero (c : Nat) : percentCovered c 0 = 100 := by
  simp [percentCovered]

theorem totalOfRun_covered_le_trackable (files : List (Finset Nat × CoverageInput)) :
    (totalOfRun files).total_covered ≤ (totalOfRun files).total_trackable := by
  unfold totalOfRun aggregate
  simp only [List.map_map]
  exact List.sum_le_sum (fun pc _ =>
    correlate_covered_le_trackable pc.1 pc.2)

/-- C2: for every per-file result produced by the correlation engine and
for the aggregate total, `percent_covered` lies in `[0, 100]`, and equals
exactly `100` whenever the corresponding trackable changed-line count is
zero. -/
theorem percent_covered_in_range :
    (∀ (changed : Finset Nat) (cov : CoverageInput),
      0 ≤ (correlate changed cov).percent_covered ∧
      (correlate changed cov).percent_covered ≤ 100 ∧
      ((correlate changed cov).trackable_count = 0 →
        (correlate changed cov).percent_covered = 100)) ∧
    (∀ files : List (Finset Nat × CoverageInput),
      0 ≤ (totalOfRun files).percent_covered ∧
      (totalOfRun files).percent_covered ≤ 100 ∧
      ((totalOfRun files).total_trackable = 0 →
        (totalOfRun files).percent_covered = 100)) := by
  constructor
  · intro changed cov
    obtain ⟨h0, h100⟩ := percentCovered_nonneg_le_100 _ _
      (correlate_covered_le_trackable changed cov)
    refine ⟨h0, h100, ?_⟩
    intro hz
    unfold FileCoverageResult.percent_covered
    rw [hz]
    exact percentCovered_of_zero _
  · intro files
    obtain ⟨h0, h100⟩ := percentCovered_nonneg_le_100 _ _
      (totalOfRun_covered_le_trackable files)
    refine ⟨h0, h100, ?_⟩
    intro hz
    unfold TotalResult.percent_covered
    rw [hz]
    exact percentCovered_of_zero _

/-- C6: the percent computation never divides by zero — the guarded
evaluation, whose ratio branch fails on a zero denominator instead of
producing a value, always succeeds and agrees with `percent_covered`,
both per file and for the aggregate of any run. -/
theorem percent_covered_never_divides_by_zero :
    (∀ c t : Nat, percentCoveredChecked c t = some (percentCovered c t)) ∧
    (∀ (changed : Finset Nat) (cov : CoverageInput),
      percentCoveredChecked (correlate changed cov).covered_count
          (correlate changed cov).trackable_count
        = some ((correlate changed cov).percent_covered)) ∧
    (∀ files : List (Finset Nat × CoverageInput),
      percentCoveredChecked (totalOfRun files).total_covered
          (totalOfRun files).total_trackable
        = some ((totalOfRun files).percent_covered)) := by
  have base : ∀ c t : Nat, percentCoveredChecked c t = some (percentCovered c t) := by
    intro c t
    unfold percentCoveredChecked percentCovered safeDiv
    by_cases ht : t = 0
    · simp [ht]
    · have htq : ((t : Nat) : ℚ) ≠ 0 := Nat.cast_ne_zero.mpr ht
      simp [ht, htq]
  exact ⟨base, fun changed cov => base _ _, fun files => base _ _⟩

theorem not_eq_of_optionLike {t lit : String} (hlit : isOptionLike lit = true)
    (ht : isOptionLike t = false) : t ≠ lit := by
  rintro rfl
  rw [ht] at hlit
  exact Bool.false_ne_true hlit

theorem parseLoop_positional_run (fuel : Nat) (t : String) (rest : List String)
    (acc : CoverageArgs)
    (ht : isOptionLike t = false)
    (hrest : ∀ s ∈ rest, isOptionLike s = false) :
    parseLoop (fuel + 1) (t :: rest) acc [] =
      .ok { acc with coverage_xml := t :: rest } := by
  have htw : rest.takeWhile (fun s => !isOptionLike s) = rest :=
    List.takeWhile_eq_self_iff.mpr (by intro x hx; simp [hrest x hx])
  have hdw : rest.dropWhile (fun s => !isOptionLike s) = [] :=
    List.dropWhile_eq_nil_iff.mpr (by intro x hx; simp [hrest x hx])
  have h1 := @not_eq_of_optionLike _ "--html-report" (by decide) ht
  have h2 := @not_eq_of_optionLike _ "--external-css-file" (by decide) ht
  have h3 := @not_eq_of_optionLike _ "--compare-branch" (by decide) ht
  have h4 := @not_eq_of_optionLike _ "--fail-under" (by decide) ht
  have h5 := @not_eq_of_optionLike _ "--ignore-staged" (by decide) ht
  have h6 := @not_eq_of_optionLike _ "--ignore-unstaged" (by decide) ht
  have h7 := @not_eq_of_optionLike _ "--exclude" (by decide) ht
  have h8 := @not_eq_of_optionLike _ "--src-roots" (by decide) ht
  rw [parseLoop]
  simp [h1, h2, h3, h4, h5, h6, h7, h8, ht, htw, hdw, parseLoop]

/-- C9: parsing an argv of one or more positional coverage paths and no
optional flags yields a dict in which `html_report` and
`external_css_file` are `None`, `compare_branch` is `origin/master`,
`fail_under` is the float `0.0` obtained by converting the string default
`'0'` with the `float` type, `ignore_staged` and `ignore_unstaged` are
`False`, and `exclude` is `None`. -/
theorem parse_coverage_args_defaults (t : String) (rest : List String)
    (ht : isOptionLike t = false)
    (hrest : ∀ s ∈ rest, isOptionLike s = false) :
    parse_coverage_args (t :: rest) =
      .ok { coverage_xml := t :: rest
            html_report := none
            external_css_file := none
            compare_branch := "origin/master"
            fail_under := 0
            ignore_staged := false
            ignore_unstaged := false
            exclude := none
            src_roots := ["src/main/java", "src/test/java"] } :=
  parseLoop_positional_run rest.length t rest defaultArgs ht hrest

/-- Witness for C9: concrete run on `["cov.xml"]`. -/
theorem parse_coverage_args_defaults_witness :
    parse_coverage_args ["cov.xml"] =
      .ok { coverage_xml := ["cov.xml"]
            html_report := none
            external_css_file := none
            compare_branch := "origin/master"
            fail_under := 0
            ignore_staged := false
            ignore_unstaged := false
            exclude := none
            src_roots := ["src/main/java", "src/test/java"] } :=
  parse_coverage_args_defaults "cov.xml" [] (by decide) (by simp)

/-- C5: every positional coverage XML path is parsed and the parsed
roots are handed, as one list in the order given, to a single
`XmlCoverageReporter`; an argv with zero positional coverage paths makes
argument parsing fail. -/
theorem coverage_xml_all_parsed_in_order {α : Type} (parseXml : String → α)
    (p : ℚ) (t : String) (rest : List String)
    (ht : isOptionLike t = false)
    (hrest : ∀ s ∈ rest, isOptionLike s = false) :
    (∀ (cov : List String) (cb : String) (hro cssf : Option String)
        (ist iust : Bool) (ex sr : Option (List String)),
      (generate_coverage_report parseXml p cov cb hro cssf ist iust ex sr).coverage
        = { xml_roots := cov.map parseXml, src_roots := sr }) ∧
    ((parse_coverage_args (t :: rest)).map CoverageArgs.coverage_xml
        = .ok (t :: rest)) ∧
    parse_coverage_args []
        = .error "the following arguments are required: coverage_xml" := by
  refine ⟨fun cov cb hro cssf ist iust ex sr => rfl, ?_, rfl⟩
  rw [show parse_coverage_args (t :: rest)
        = parseLoop (rest.length + 1) (t :: rest) defaultArgs [] from rfl,
    parseLoop_positional_run rest.length t rest defaultArgs ht hrest]
  rfl

/-- Witness for C5: concrete run with two coverage paths. -/
theorem coverage_xml_all_parsed_in_order_witness :
    (∀ (cov : List String) (cb : String) (hro cssf : Option String)
        (ist iust : Bool) (ex sr : Option (List String)),
      (generate_coverage_report (fun s : String => s) 0 cov cb hro cssf ist iust ex sr).coverage
        = { xml_roots := cov.map (fun s : String => s), src_roots := sr }) ∧
    ((parse_coverage_args ["a.xml", "b.xml"]).map CoverageArgs.coverage_xml
        = .ok ["a.xml", "b.xml"]) ∧
    parse_coverage_args []
        = .error "the following arguments are required: coverage_xml" :=
  coverage_xml_all_parsed_in_order (fun s => s) 0 "a.xml" ["b.xml"]
    (by decide) (by decide)

/-- C4: the `--src-roots` list reaches the coverage reporter verbatim and
in command-line order, and defaults to
`['src/main/java', 'src/test/java']` when the option is absent. -/
theorem src_roots_passed_verbatim {α : Type} (parseXml : String → α) (p : ℚ)
    (roots : List String) (hne : roots ≠ [])
    (hroots : ∀ s ∈ roots, isOptionLike s = false) :
    (parse_coverage_args ("cov.xml" :: "--src-roots" :: roots)
        = .ok { defaultArgs with coverage_xml := ["cov.xml"], src_roots := roots }) ∧
    (parse_coverage_args ["cov.xml"]
        = .ok { defaultArgs with coverage_xml := ["cov.xml"] }) ∧
    defaultArgs.src_roots = ["src/main/java", "src/test/java"] ∧
    (∀ (cov : List String) (cb : String) (hro cssf : Option String)
        (ist iust : Bool) (ex sr : Option (List String)),
      (generate_coverage_report parseXml p cov cb hro cssf ist iust ex sr).coverage.src_roots
        = sr) ∧
    (∀ d : CoverageArgs,
      (engineRunOfArgs parseXml p d).coverage.src_roots = some d.src_roots) := by
  refine ⟨?_, rfl, rfl, fun cov cb hro cssf ist iust ex sr => rfl, fun d => rfl⟩
  have htw : roots.takeWhile (fun s => !isOptionLike s) = roots :=
    List.takeWhile_eq_self_iff.mpr (by intro x hx; simp [hroots x hx])
  have hdw : roots.dropWhile (fun s => !isOptionLike s) = [] :=
    List.dropWhile_eq_nil_iff.mpr (by intro x hx; simp [hroots x hx])
  have hlen : ("cov.xml" :: "--src-roots" :: roots).length = (roots.length + 1) + 1 := by
    simp
  have d1 : ("cov.xml" : String) ≠ "--html-report" := by decide
  have d2 : ("cov.xml" : String) ≠ "--external-css-file" := by decide
  have d3 : ("cov.xml" : String) ≠ "--compare-branch" := by decide
  have d4 : ("cov.xml" : String) ≠ "--fail-under" := by decide
  have d5 : ("cov.xml" : String) ≠ "--ignore-staged" := by decide
  have d6 : ("cov.xml" : String) ≠ "--ignore-unstaged" := by decide
  have d7 : ("cov.xml" : String) ≠ "--exclude" := by decide
  have d8 : ("cov.xml" : String) ≠ "--src-roots" := by decide
  have dopt : isOptionLike "cov.xml" = false := by decide
  have dsr : isOptionLike "--src-roots" = true := by decide
  have e1 : ("--src-roots" : String) ≠ "--html-report" := by decide
  have e2 : ("--src-roots" : String) ≠ "--external-css-file" := by decide
  have e3 : ("--src-roots" : String) ≠ "--compare-branch" := by decide
  have e4 : ("--src-roots" : String) ≠ "--fail-under" := by decide
  have e5 : ("--src-roots" : String) ≠ "--ignore-staged" := by decide
  have e6 : ("--src-roots" : String) ≠ "--ignore-unstaged" := by decide
  have e7 : ("--src-roots" : String) ≠ "--exclude" := by decide
  unfold parse_coverage_args
  rw [hlen, parseLoop]
  simp only [d1, d2, d3, d4, d5, d6, d7, d8, dopt, dsr, if_false, if_neg,
    List.takeWhile, List.dropWhile, Bool.not_true, Bool.not_false, if_true]
  rw [parseLoop]
  simp [e1, e2, e3, e4, e5, e6, e7, multiValue, htw, hdw, hne, parseLoop]

/-- Witness for C4: concrete run with two source roots, in order. -/
theorem src_roots_passed_verbatim_witness :
    (parse_coverage_args ["cov.xml", "--src-roots", "a", "b"]
        = .ok { defaultArgs with coverage_xml := ["cov.xml"], src_roots := ["a", "b"] }) ∧
    (parse_coverage_args ["cov.xml"]
        = .ok { defaultArgs with coverage_xml := ["cov.xml"] }) ∧
    defaultArgs.src_roots = ["src/main/java", "src/test/java"] ∧
    (∀ (cov : List String) (cb : String) (hro cssf : Option String)
        (ist iust : Bool) (ex sr : Option (List String)),
      (generate_coverage_report (fun s : String => s) 0 cov cb hro cssf ist iust ex sr).coverage.src_roots
        = sr) ∧
    (∀ d : CoverageArgs,
      (engineRunOfArgs (fun s : String => s) 0 d).coverage.src_roots = some d.src_roots) :=
  src_roots_passed_verbatim (fun s => s) 0 ["a", "b"] (by simp) (by decide)

/-- C7: the plain-text report is written to standard output on every
invocation, an HTML report file is written exactly when `html_report` is
not `None` (and to that path), and the return value is the total percent
computed by the string report generator. -/
theorem report_written_unconditionally {α : Type} (parseXml : String → α)
    (p : ℚ) (cov : List String) (cb : String) (hro cssf : Option String)
    (ist iust : Bool) (ex sr : Option (List String)) :
    Effect.writeStdoutReport
        ∈ (generate_coverage_report parseXml p cov cb hro cssf ist iust ex sr).effects ∧
    (∀ hr : String,
      (∃ url, Effect.writeHtmlReport hr url
          ∈ (generate_coverage_report parseXml p cov cb hro cssf ist iust ex sr).effects)
        ↔ hro = some hr) ∧
    (generate_coverage_report parseXml p cov cb hro cssf ist iust ex sr).result
        = p := by
  refine ⟨?_, ?_, rfl⟩
  · cases hro <;> cases cssf <;> simp [generate_coverage_report]
  · intro hr
    cases hro <;> cases cssf <;>
      simp [generate_coverage_report, eq_comm]

/-- C8: without an HTML report the CSS file is never written even when
supplied; with both, the CSS file is written and the URL embedded in the
HTML report is the path of `css_file` relative to the directory
containing `html_report`. -/
theorem css_only_written_with_html {α : Type} (parseXml : String → α)
    (p : ℚ) (cov : List String) (cb : String) (cf : String)
    (ist iust : Bool) (ex sr : Option (List String)) :
    ((generate_coverage_report parseXml p cov cb none (some cf) ist iust ex sr).effects
        = [Effect.writeStdoutReport]) ∧
    (∀ hr : String,
      (generate_coverage_report parseXml p cov cb (some hr) (some cf) ist iust ex sr).effects
        = [Effect.writeHtmlReport hr (some (relpath cf (dirname hr))),
           Effect.writeCssFile cf, Effect.writeStdoutReport]) :=
  ⟨rfl, fun _ => rfl⟩

/-- C1: `main` returns 0 exactly when the percent returned by
`generate_coverage_report` is at least `fail_under`, returns 1 (after
logging the failure message) exactly when it is strictly below, returns
no other value, and the engine run is unchanged by the threshold — the
comparison happens in `main`, not in the engine. -/
theorem main_exit_code_threshold {α : Type} (parseXml : String → α) (p : ℚ)
    (argv : Option (List String)) (sysArgv : List String) (d : CoverageArgs)
    (hparse : parse_coverage_args (effectiveArgv argv sysArgv).tail = .ok d) :
    (main parseXml p argv sysArgv
        = .ok { exit := 0, loggedFailure := false,
                engine := engineRunOfArgs parseXml p d }
      ↔ d.fail_under ≤ p) ∧
    (main parseXml p argv sysArgv
        = .ok { exit := 1, loggedFailure := true,
                engine := engineRunOfArgs parseXml p d }
      ↔ p < d.fail_under) ∧
    (∃ r : MainRun α, main parseXml p argv sysArgv = .ok r ∧
      (r.exit = 0 ∨ r.exit = 1)) ∧
    (∀ fu : ℚ, engineRunOfArgs parseXml p { d with fail_under := fu }
        = engineRunOfArgs parseXml p d) := by
  have hmain : main parseXml p argv sysArgv =
      if p ≥ d.fail_under then
        .ok { exit := 0, loggedFailure := false,
              engine := engineRunOfArgs parseXml p d }
      else
        .ok { exit := 1, loggedFailure := true,
              engine := engineRunOfArgs parseXml p d } := by
    unfold main
    rw [hparse]
    rfl
  by_cases h : d.fail_under ≤ p
  · rw [hmain, if_pos h]
    refine ⟨by simp [h], ?_, ⟨_, rfl, Or.inl rfl⟩, fun fu => rfl⟩
    simp only [Except.ok.injEq, MainRun.mk.injEq]
    constructor
    · rintro ⟨h01, -⟩
      exact absurd h01 (by norm_num)
    · intro hlt
      exact absurd h (not_le.mpr hlt)
  · rw [hmain, if_neg h]
    refine ⟨?_, by simp [not_le.mp h], ⟨_, rfl, Or.inr rfl⟩, fun fu => rfl⟩
    simp only [Except.ok.injEq, MainRun.mk.injEq]
    constructor
    · rintro ⟨h10, -⟩
      exact absurd h10 (by norm_num)
    · intro hle
      exact absurd hle h

/-- Witness for C1: with an engine percent of 50 and the default
threshold 0, `main` returns exit code 0. -/
theorem main_exit_code_threshold_witness :
    main (fun s : String => s) 50 (some ["prog", "cov.xml"]) []
      = .ok { exit := 0, loggedFailure := false,
              engine := engineRunOfArgs (fun s : String => s) 50
                { defaultArgs with coverage_xml := ["cov.xml"] } } :=
  ((main_exit_code_threshold (fun s => s) 50 (some ["prog", "cov.xml"]) []
      { defaultArgs with coverage_xml := ["cov.xml"] } rfl).1).mpr
    (by show (0 : ℚ) ≤ 50; norm_num)

/-- C10: `main` falls back to `sys.argv` when `argv` is `None` or empty,
and the first element of the effective argument vector is discarded
before option parsing, so `main(['prog', 'cov.xml'])` parses only
`['cov.xml']`. -/
theorem main_argv_fallback_and_drop {α : Type} (parseXml : String → α) (p : ℚ) :
    (∀ sysArgv : List String, effectiveArgv none sysArgv = sysArgv) ∧
    (∀ sysArgv : List String, effectiveArgv (some []) sysArgv = sysArgv) ∧
    (∀ (sysArgv rest : List String) (h : String),
      effectiveArgv (some (h :: rest)) sysArgv = h :: rest) ∧
    (∀ sysArgv : List String,
      main parseXml p none sysArgv = main parseXml p (some []) sysArgv) ∧
    (main parseXml p (some ["prog", "cov.xml"]) []
        = main parseXml p (some ["other-name", "cov.xml"]) []) ∧
    ((parse_coverage_args (effectiveArgv (some ["prog", "cov.xml"]) []).tail).map
        CoverageArgs.coverage_xml = .ok ["cov.xml"]) :=
  ⟨fun _ => rfl, fun _ => rfl, fun _ _ _ => rfl, fun _ => rfl, rfl, rfl⟩

end DiffCover
